import Mathlib

/-!
Verification of the Terraform command-cards application.

The application embeds a fixed catalog `TOPICS` of command reference
entries and renders them in a browser.  The client-side logic consists of

* `refresh` — trims and lowercases the search string, keeps the catalog
  entries whose concatenated title/description/command/example text
  contains it, and stably sorts the survivors by descending importance
  score (a missing score counts as zero);
* `buildCards` — walks the filtered list in order and emits one group
  header the first time each (non-empty) category value is encountered,
  followed by the entry's card;
* the copy and show/hide handlers attached to each card.

Strings are modelled as lists of characters; case folding is modelled on
ASCII letters, which covers the whole embedded catalog.
-/

/-- ASCII lower-casing of one character, as performed on the search text. -/
def lowerChar (c : Char) : Char :=
  if 'A' ≤ c ∧ c ≤ 'Z' then Char.ofNat (c.toNat + 32) else c

/-- Lower-case a string (list of characters). -/
def lowerStr (s : List Char) : List Char := s.map lowerChar

/-- Whitespace characters removed by trimming the search box input. -/
def isSpaceChar (c : Char) : Bool :=
  c = ' ' || c = '\t' || c = '\n' || c = '\r'

/-- Trim leading and trailing whitespace from the search text. -/
def trimStr (s : List Char) : List Char :=
  ((s.dropWhile isSpaceChar).reverse.dropWhile isSpaceChar).reverse

/-- Does `p` occur at the start of `s`? -/
def leadsWith : List Char → List Char → Bool
  | [], _ => true
  | _ :: _, [] => false
  | c :: cs, d :: ds => c == d && leadsWith cs ds

/-- Does `pat` occur as a contiguous substring of `s`
(the semantics of `String.prototype.includes`)? -/
def containsSub (s pat : List Char) : Bool :=
  match s with
  | [] => pat.isEmpty
  | _ :: rest => leadsWith pat s || containsSub rest pat

/-- One catalog entry.  The `score` field is never set by the embedded
catalog but the rendering code reads it, so it is kept as optional. -/
structure Topic where
  id : String
  title : String
  desc : String
  cmd : String
  exampleText : String
  tf_link : String
  category : String
  score : Option Int := none
deriving DecidableEq

/-- The importance score used by the sort comparator: `t.score || 0`. -/
def scoreD (t : Topic) : Int := t.score.getD 0

/-- `scoreGe a b` holds when `a` may come before `b` in the
score-descending order produced by the comparator
`(a, b) => (b.score || 0) - (a.score || 0)`. -/
def scoreGe (a b : Topic) : Prop := scoreD b ≤ scoreD a

instance : DecidableRel scoreGe := fun a b => inferInstanceAs (Decidable (scoreD b ≤ scoreD a))

instance : IsTotal Topic scoreGe := ⟨fun a b => Int.le_total (scoreD b) (scoreD a)⟩

instance : IsTrans Topic scoreGe := ⟨fun _ _ _ h₁ h₂ => le_trans h₂ h₁⟩

/-- The stable score-descending sort applied by `refresh`
(JavaScript `Array.prototype.sort` is guaranteed stable; insertion sort
with the non-strict comparison realises exactly that order). -/
def sortTopics (l : List Topic) : List Topic := List.insertionSort scoreGe l

/-- The text the filter is matched against: title, description, command
and example joined by single spaces. -/
def combinedChars (t : Topic) : List Char :=
  (t.title ++ " " ++ t.desc ++ " " ++ t.cmd ++ " " ++ t.exampleText).toList

/-- The filter predicate applied to one topic, given the already
trimmed and lower-cased search text `ft`. -/
def matchesFilter (ft : List Char) (t : Topic) : Bool :=
  if ft.isEmpty then true else containsSub (lowerStr (combinedChars t)) ft

/-- Normalisation applied to the raw search box text: trim, then
lower-case. -/
def normFilter (filterText : String) : List Char :=
  lowerStr (trimStr filterText.toList)

/-- An item of the rendered stream: a category group header or a card. -/
inductive RenderItem where
  | header (category : String)
  | card (t : Topic)
deriving DecidableEq

/-- Whether a card displays the importance badge: the code renders it
only when `t.score` is truthy. -/
def showsScoreBadge (t : Topic) : Bool :=
  match t.score with
  | none => false
  | some n => n != 0

/-- The card-building pass over the view model, carrying the set of
category names for which a header has already been emitted. -/
def buildCardsAux (seen : List String) : List Topic → List RenderItem
  | [] => []
  | t :: rest =>
    if t.category ≠ "" ∧ t.category ∉ seen then
      RenderItem.header t.category :: RenderItem.card t ::
        buildCardsAux (t.category :: seen) rest
    else
      RenderItem.card t :: buildCardsAux seen rest

/-- The rendered stream produced from a view model. -/
def buildCards (vm : List Topic) : List RenderItem := buildCardsAux [] vm

/-- The header component of a rendered item, if any. -/
def pickHeader : RenderItem → Option String
  | RenderItem.header c => some c
  | RenderItem.card _ => none

/-- The sequence of group headers emitted during a render pass. -/
def headersOf (vm : List Topic) : List String :=
  (buildCards vm).filterMap pickHeader

/-- The categories of a list of topics, in order. -/
def catsOf (vm : List Topic) : List String := vm.map Topic.category

set_option maxHeartbeats 1000000 in
/-- The embedded catalog, transcribed verbatim from the source. -/
def TOPICS : List Topic := [
  Topic.mk "init" "terraform init"
    "Initialize a new or existing Terraform working directory: downloads providers, initializes backends and modules."
    "terraform init"
    "terraform init\n# Reconfigure backend\nterraform init -reconfigure -backend-config=\"bucket=my-bucket\""
    "https://developer.hashicorp.com/terraform/cli/commands/init"
    "Basic Terraform Commands" none,
  Topic.mk "plan" "terraform plan"
    "Generate and show an execution plan (what Terraform will change)."
    "terraform plan -out=plan.tfplan"
    "terraform plan -out=plan.tfplan\nterraform plan -detailed-exitcode"
    "https://developer.hashicorp.com/terraform/cli/commands/plan"
    "Basic Terraform Commands" none,
  Topic.mk "apply" "terraform apply"
    "Build or change infrastructure as described by the plan or configuration."
    "terraform apply plan.tfplan"
    "terraform apply plan.tfplan\n# non-interactive\nterraform apply -auto-approve"
    "https://developer.hashicorp.com/terraform/cli/commands/apply"
    "Basic Terraform Commands" none,
  Topic.mk "destroy" "terraform destroy"
    "Destroy Terraform-managed infrastructure for the current configuration."
    "terraform destroy"
    "terraform destroy -auto-approve\n# target a single resource\nterraform destroy -target=aws_instance.example"
    "https://developer.hashicorp.com/terraform/cli/commands/destroy"
    "Basic Terraform Commands" none,
  Topic.mk "fmt" "terraform fmt"
    "Format Terraform configuration files to canonical HCL style."
    "terraform fmt -recursive"
    "terraform fmt -check -recursive"
    "https://developer.hashicorp.com/terraform/cli/commands/fmt"
    "Basic Terraform Commands" none,
  Topic.mk "validate" "terraform validate"
    "Validate configuration syntax and basic semantic rules without contacting remote systems."
    "terraform validate"
    "terraform validate\nterraform validate -json > validate.json"
    "https://developer.hashicorp.com/terraform/cli/commands/validate"
    "Basic Terraform Commands" none,
  Topic.mk "output" "terraform output"
    "Read outputs from the state or a saved plan; supports machine-readable JSON."
    "terraform output instance_ip"
    "terraform output -json > outputs.json"
    "https://developer.hashicorp.com/terraform/cli/commands/output"
    "Basic Terraform Commands" none,
  Topic.mk "show" "terraform show"
    "Produce human-readable or JSON representation of state or plan files."
    "terraform show plan.tfplan"
    "terraform show -json plan.tfplan > plan.json"
    "https://developer.hashicorp.com/terraform/cli/commands/show"
    "Basic Terraform Commands" none,
  Topic.mk "version" "terraform version"
    "Display the Terraform and plugin versions in use."
    "terraform version"
    "terraform version"
    "https://developer.hashicorp.com/terraform/cli/commands/version"
    "Basic Terraform Commands" none,
  Topic.mk "providers" "terraform providers"
    "List providers required by the configuration and show provider dependency graph."
    "terraform providers"
    "terraform providers\nterraform providers | sed -n \x271,50p\x27"
    "https://developer.hashicorp.com/terraform/cli/commands/providers"
    "Basic Terraform Commands" none,
  Topic.mk "state_list" "terraform state list"
    "List all resources recorded in the Terraform state."
    "terraform state list"
    "terraform state list"
    "https://developer.hashicorp.com/terraform/cli/state"
    "Terraform State Management" none,
  Topic.mk "state_show" "terraform state show"
    "Show attributes for a single resource from the state."
    "terraform state show aws_instance.example"
    "terraform state show module.db.aws_db_instance.example"
    "https://developer.hashicorp.com/terraform/cli/state"
    "Terraform State Management" none,
  Topic.mk "state_pull" "terraform state pull"
    "Download current state from the backend as JSON to stdout."
    "terraform state pull"
    "terraform state pull > terraform.tfstate"
    "https://developer.hashicorp.com/terraform/cli/state"
    "Terraform State Management" none,
  Topic.mk "state_push" "terraform state push"
    "Upload a local state file to the remote backend (advanced/rare; use with caution)."
    "terraform state push terraform.tfstate"
    "terraform state push terraform.tfstate"
    "https://developer.hashicorp.com/terraform/cli/state"
    "Terraform State Management" none,
  Topic.mk "state_rm" "terraform state rm"
    "Remove a resource from the state without modifying real infrastructure."
    "terraform state rm aws_instance.example"
    "terraform state rm module.old.aws_instance.example"
    "https://developer.hashicorp.com/terraform/cli/state"
    "Terraform State Management" none,
  Topic.mk "state_mv" "terraform state mv"
    "Move resources within the state (rename or move between modules)."
    "terraform state mv \x27aws_instance.old[0]\x27 \x27aws_instance.new[0]\x27"
    "terraform state mv module.old.aws_instance.example module.new.aws_instance.example"
    "https://developer.hashicorp.com/terraform/cli/state"
    "Terraform State Management" none,
  Topic.mk "state_replace_provider" "terraform state replace-provider"
    "Replace provider references in the state when changing provider addresses."
    "terraform state replace-provider registry.terraform.io/hashicorp/aws registry.terraform.io/custom/myaws"
    "terraform state replace-provider old_provider new_provider"
    "https://developer.hashicorp.com/terraform/cli/state"
    "Terraform State Management" none,
  Topic.mk "refresh" "terraform refresh"
    "Update local state to match real-world infrastructure (deprecated; plan/refresh flags preferred)."
    "terraform refresh"
    "terraform refresh\n# or use plan with -refresh=true/false"
    "https://developer.hashicorp.com/terraform/cli/commands/plan"
    "Terraform State Management" none,
  Topic.mk "workspace_list" "terraform workspace list"
    "List all named workspaces for the current configuration."
    "terraform workspace list"
    "terraform workspace list"
    "https://developer.hashicorp.com/terraform/cli/commands/workspace"
    "Terraform Workspaces" none,
  Topic.mk "workspace_new" "terraform workspace new"
    "Create a new named workspace (separate state instance)."
    "terraform workspace new dev"
    "terraform workspace new staging"
    "https://developer.hashicorp.com/terraform/cli/commands/workspace"
    "Terraform Workspaces" none,
  Topic.mk "workspace_select" "terraform workspace select"
    "Switch to an existing workspace to use its state."
    "terraform workspace select prod"
    "terraform workspace select staging"
    "https://developer.hashicorp.com/terraform/cli/commands/workspace"
    "Terraform Workspaces" none,
  Topic.mk "workspace_delete" "terraform workspace delete"
    "Delete a workspace and its state (use with caution)."
    "terraform workspace delete old-env"
    "terraform workspace delete staging"
    "https://developer.hashicorp.com/terraform/cli/commands/workspace"
    "Terraform Workspaces" none,
  Topic.mk "workspace_show" "terraform workspace show"
    "Display the current workspace name."
    "terraform workspace show"
    "terraform workspace show"
    "https://developer.hashicorp.com/terraform/cli/commands/workspace"
    "Terraform Workspaces" none,
  Topic.mk "import_resource" "terraform import"
    "Import existing infrastructure into Terraform state; update configuration afterwards to match resource attributes."
    "terraform import aws_instance.web i-0123456789abcdef0"
    "terraform import module.db.aws_db_instance.example rds-123456"
    "https://developer.hashicorp.com/terraform/cli/commands/import"
    "Terraform Import" none,
  Topic.mk "graph" "terraform graph"
    "Output dependency graph in DOT format; pipe to Graphviz to render images."
    "terraform graph | dot -Tpng > graph.png"
    "terraform graph | dot -Tsvg > graph.svg"
    "https://developer.hashicorp.com/terraform/cli/commands/graph"
    "Graph & Visualization" none,
  Topic.mk "apply_auto_approve" "terraform apply -auto-approve"
    "Apply without interactive confirmation (use with caution in automation)."
    "terraform apply -auto-approve"
    "terraform apply -auto-approve"
    "https://developer.hashicorp.com/terraform/cli/commands/apply"
    "Plan & Apply Options" none,
  Topic.mk "apply_var" "terraform apply -var"
    "Pass a single variable override on the CLI during apply."
    "terraform apply -var=\x27key=value\x27"
    "terraform apply -var=\x27region=eu-west-1\x27 -auto-approve"
    "https://developer.hashicorp.com/terraform/language/values/variables#passing-values-on-the-command-line"
    "Plan & Apply Options" none,
  Topic.mk "apply_target" "terraform apply -target"
    "Apply changes targeting a specific resource (advanced; use carefully)."
    "terraform apply -target=aws_instance.example"
    "terraform apply -target=module.db.aws_db_instance.example"
    "https://developer.hashicorp.com/terraform/cli/commands/apply"
    "Plan & Apply Options" none,
  Topic.mk "apply_planfile" "terraform apply <plan_file>"
    "Apply a previously saved plan file to perform the planned changes."
    "terraform apply plan.tfplan"
    "terraform plan -out=plan.tfplan\nterraform apply plan.tfplan"
    "https://developer.hashicorp.com/terraform/cli/commands/apply"
    "Plan & Apply Options" none,
  Topic.mk "plan_out" "terraform plan -out"
    "Save the execution plan to a file for later application or inspection."
    "terraform plan -out=plan.tfplan"
    "terraform plan -out=ci.plan\nterraform show -json ci.plan > ci-plan.json"
    "https://developer.hashicorp.com/terraform/cli/commands/plan"
    "Plan & Apply Options" none,
  Topic.mk "plan_var" "terraform plan -var"
    "Provide a one-off variable override on the CLI when generating a plan."
    "terraform plan -var=\x27key=value\x27"
    "terraform plan -var=\x27env=staging\x27 -out=plan.tfplan"
    "https://developer.hashicorp.com/terraform/language/values/variables#passing-values-on-the-command-line"
    "Plan & Apply Options" none,
  Topic.mk "plan_target" "terraform plan -target"
    "Generate a plan targeting specific resources to limit change scope."
    "terraform plan -target=aws_instance.example"
    "terraform plan -target=module.db -out=target-plan.tfplan"
    "https://developer.hashicorp.com/terraform/cli/commands/plan"
    "Plan & Apply Options" none,
  Topic.mk "plan_destroy" "terraform plan -destroy"
    "Show a plan that would destroy all resources managed by the configuration."
    "terraform plan -destroy"
    "terraform plan -destroy -out=destroy.tfplan"
    "https://developer.hashicorp.com/terraform/cli/commands/plan"
    "Plan & Apply Options" none,
  Topic.mk "plan_refresh_false" "terraform plan -refresh=false"
    "Skip refreshing the state from real infrastructure when generating the plan (faster but may be stale)."
    "terraform plan -refresh=false"
    "terraform plan -refresh=false -out=plan.tfplan"
    "https://developer.hashicorp.com/terraform/cli/commands/plan"
    "Plan & Apply Options" none,
  Topic.mk "apply_refresh_only" "terraform apply -refresh-only"
    "Update the state to match real infrastructure without changing any resources."
    "terraform apply -refresh-only"
    "terraform apply -refresh-only -auto-approve"
    "https://developer.hashicorp.com/terraform/cli/commands/apply"
    "Plan & Apply Options" none,
  Topic.mk "apply_var_file" "terraform apply -var-file=<file.tfvars>"
    "Load variables from a .tfvars file during apply to provide consistent input values."
    "terraform apply -var-file=prod.tfvars"
    "terraform apply -var-file=prod.tfvars -auto-approve"
    "https://developer.hashicorp.com/terraform/language/values/variables#variable-definitions-tfvars-files"
    "Variable Management (explicit cards per request)" none,
  Topic.mk "plan_var_file" "terraform plan -var-file=<file.tfvars>"
    "Create a plan using variables sourced from a .tfvars file."
    "terraform plan -var-file=prod.tfvars -out=plan.tfplan"
    "terraform plan -var-file=staging.tfvars -out=plan.tfplan"
    "https://developer.hashicorp.com/terraform/cli/commands/plan"
    "Variable Management (explicit cards per request)" none,
  Topic.mk "apply_var_cli" "terraform apply -var=\"key=value\""
    "Apply with an immediate single variable override from the CLI."
    "terraform apply -var=\x27image=ami-12345\x27 -auto-approve"
    "terraform apply -var=\x27region=eu-west-1\x27 -auto-approve"
    "https://developer.hashicorp.com/terraform/language/values/variables#passing-values-on-the-command-line"
    "Variable Management (explicit cards per request)" none,
  Topic.mk "plan_var_cli" "terraform plan -var=\"key=value\""
    "Plan using a single CLI-provided variable override."
    "terraform plan -var=\x27image=ami-12345\x27 -out=plan.tfplan"
    "terraform plan -var=\x27env=dev\x27 -out=plan.tfplan"
    "https://developer.hashicorp.com/terraform/language/values/variables#passing-values-on-the-command-line"
    "Variable Management (explicit cards per request)" none,
  Topic.mk "apply_lock_false" "terraform apply -lock=false"
    "Disable state locking for this apply (dangerous for remote backends; use cautiously)."
    "terraform apply -lock=false -auto-approve"
    "terraform apply -lock=false -auto-approve"
    "https://developer.hashicorp.com/terraform/cli/commands/apply"
    "Variable Management (explicit cards per request)" none,
  Topic.mk "plan_input_false" "terraform plan -input=false"
    "Run plan non-interactively by disabling prompts for missing input; useful in CI."
    "terraform plan -input=false -var-file=ci.tfvars"
    "terraform plan -input=false -var-file=secrets.tfvars -out=plan.tfplan"
    "https://developer.hashicorp.com/terraform/cli/commands/plan"
    "Variable Management (explicit cards per request)" none,
  Topic.mk "taint_cmd" "terraform taint <resource>"
    "Mark a resource in the state to be recreated on the next apply."
    "terraform taint aws_instance.example"
    "terraform taint aws_instance.old"
    "https://developer.hashicorp.com/terraform/cli/commands/taint"
    "Resource Taint & Untaint" none,
  Topic.mk "untaint_cmd" "terraform untaint <resource>"
    "Remove a taint mark so the resource will not be recreated."
    "terraform untaint aws_instance.example"
    "terraform untaint aws_instance.old"
    "https://developer.hashicorp.com/terraform/cli/commands/taint"
    "Resource Taint & Untaint" none,
  Topic.mk "remote_config" "terraform remote config"
    "Configure remote state storage (legacy command in older versions; use backend blocks with init)."
    "terraform remote config"
    "# Prefer backend block + terraform init\nterraform init -backend-config=\"bucket=my-bucket\""
    "https://developer.hashicorp.com/terraform/language/state/overview"
    "Remote State Management" none,
  Topic.mk "backend_config" "terraform init -backend-config"
    "Specify backend configuration values at init time or reconfigure existing backend."
    "terraform init -backend-config=backend.tf"
    "terraform init -backend-config=\"bucket=my-bucket\" -reconfigure"
    "https://developer.hashicorp.com/terraform/language/state/overview"
    "Remote State Management" none,
  Topic.mk "state_push_remote" "terraform state push (remote)"
    "Upload a local state file to the configured backend (advanced; be cautious)."
    "terraform state push terraform.tfstate"
    "terraform state push terraform.tfstate"
    "https://developer.hashicorp.com/terraform/cli/state"
    "Remote State Management" none,
  Topic.mk "state_pull_remote" "terraform state pull (remote)"
    "Download current remote state from the backend."
    "terraform state pull > current.tfstate"
    "terraform state pull > backup-2025-10-22.tfstate"
    "https://developer.hashicorp.com/terraform/cli/state"
    "Remote State Management" none,
  Topic.mk "providers_schema" "terraform providers schema"
    "Show provider schema to inspect resource and data source attributes (JSON output available)."
    "terraform providers schema -json"
    "terraform providers schema -json > providers-schema.json"
    "https://developer.hashicorp.com/terraform/cli/commands/providers"
    "Provider Management" none,
  Topic.mk "providers_lock" "terraform providers lock"
    "Generate a dependency lock file for providers to ensure reproducible installs."
    "terraform providers lock -platform=linux_amd64"
    "terraform providers lock -platform=linux_amd64"
    "https://developer.hashicorp.com/terraform/cli/commands/providers"
    "Provider Management" none,
  Topic.mk "providers_mirror" "terraform providers mirror"
    "Mirror provider plugins to a directory for air-gapped installs."
    "terraform providers mirror ./vendor"
    "terraform providers mirror ./vendor"
    "https://developer.hashicorp.com/terraform/cli/commands/providers"
    "Provider Management" none,
  Topic.mk "providers_install" "terraform providers install"
    "Install providers locally (used by some workflows)."
    "terraform providers install"
    "terraform init && terraform providers install"
    "https://developer.hashicorp.com/terraform/cli/commands/providers"
    "Provider Management" none,
  Topic.mk "init_upgrade" "terraform init -upgrade"
    "Upgrade provider plugins to the newest allowed versions during init."
    "terraform init -upgrade"
    "terraform init -upgrade"
    "https://developer.hashicorp.com/terraform/cli/commands/init"
    "Provider Management" none,
  Topic.mk "force_unlock" "terraform force-unlock <lock-id>"
    "Manually remove a stale lock on the state using the lock ID (use carefully)."
    "terraform force-unlock LOCK_ID"
    "terraform force-unlock 1234-abcd-5678"
    "https://developer.hashicorp.com/terraform/cli/commands/force-unlock"
    "Locking and Unlocking" none,
  Topic.mk "apply_lock_timeout" "terraform apply -lock-timeout"
    "Specify how long to wait when acquiring a state lock before failing."
    "terraform apply -lock-timeout=5m -auto-approve"
    "terraform apply -lock-timeout=2m -auto-approve"
    "https://developer.hashicorp.com/terraform/cli/commands/apply"
    "Locking and Unlocking" none,
  Topic.mk "state_push_file" "terraform state push <file>"
    "Push a local state file to the remote backend (advanced restore or migration step)."
    "terraform state push backup.tfstate"
    "terraform state push backup.tfstate"
    "https://developer.hashicorp.com/terraform/cli/state"
    "State Manipulation & Backups" none,
  Topic.mk "state_pull_file" "terraform state pull > file.tfstate"
    "Pull the current state and save it locally for backup or inspection."
    "terraform state pull > backup.tfstate"
    "terraform state pull > backup-2025-10-22.tfstate"
    "https://developer.hashicorp.com/terraform/cli/state"
    "State Manipulation & Backups" none,
  Topic.mk "state_backup_restore" "State snapshot & restore"
    "Create snapshots of state and restore from backups when needed."
    "terraform state pull > snapshot.tfstate"
    "terraform state pull > snapshot.tfstate\n# restore: terraform state push snapshot.tfstate"
    "https://developer.hashicorp.com/terraform/cli/state"
    "State Manipulation & Backups" none,
  Topic.mk "tf_log_debug" "TF_LOG=DEBUG"
    "Enable debug-level logging to troubleshoot provider or plugin behavior."
    "TF_LOG=DEBUG TF_LOG_PATH=./tf.log terraform plan"
    "TF_LOG=DEBUG TF_LOG_PATH=./tf.log terraform apply"
    "https://developer.hashicorp.com/terraform/cli/commands/log"
    "Debugging & Logging" none,
  Topic.mk "tf_log_info" "TF_LOG=INFO"
    "Enable info-level logging for less verbose runtime logs."
    "TF_LOG=INFO terraform plan"
    "TF_LOG=INFO terraform plan"
    "https://developer.hashicorp.com/terraform/cli/commands/log"
    "Debugging & Logging" none,
  Topic.mk "tf_log_path" "TF_LOG_PATH"
    "Redirect Terraform logs to a file with TF_LOG_PATH."
    "TF_LOG_PATH=./tf.log terraform apply"
    "TF_LOG=DEBUG TF_LOG_PATH=./tf.log terraform plan"
    "https://developer.hashicorp.com/terraform/cli/commands/log"
    "Debugging & Logging" none,
  Topic.mk "validate_json" "terraform validate -json"
    "Produce machine-readable JSON validation output for tooling and CI."
    "terraform validate -json"
    "terraform validate -json > validate.json"
    "https://developer.hashicorp.com/terraform/cli/commands/validate"
    "Debugging & Logging" none,
  Topic.mk "console" "terraform console"
    "Interactive REPL to evaluate expressions against configuration and state."
    "terraform console"
    "terraform console\n> var.count\n> module.vpc.subnet_ids"
    "https://developer.hashicorp.com/terraform/cli/commands/console"
    "Debugging & Logging" none,
  Topic.mk "providers_schema_json" "terraform providers schema -json"
    "Output provider schema in JSON to inspect resource/data attributes programmatically."
    "terraform providers schema -json > schema.json"
    "terraform providers schema -json > providers-schema.json"
    "https://developer.hashicorp.com/terraform/cli/commands/providers"
    "Debugging & Logging" none,
  Topic.mk "apply_replace" "terraform apply -replace"
    "Force replacement of a specific resource during apply (selective recreate)."
    "terraform apply -replace=\x27aws_instance.example\x27 -auto-approve"
    "terraform apply -replace=aws_instance.example -auto-approve"
    "https://developer.hashicorp.com/terraform/cli/commands/apply"
    "Experimental Commands" none,
  Topic.mk "plan_refresh_false_exp" "terraform plan -refresh=false (experimental)"
    "Skip refresh before planning to speed up CI; may operate on stale data."
    "terraform plan -refresh=false"
    "terraform plan -refresh=false -out=plan.tfplan"
    "https://developer.hashicorp.com/terraform/cli/commands/plan"
    "Experimental Commands" none,
  Topic.mk "destroy_target" "terraform destroy -target"
    "Destroy a specific resource by targeting it (advanced; use with caution)."
    "terraform destroy -target=aws_instance.example -auto-approve"
    "terraform destroy -target=module.db.aws_db_instance.example -auto-approve"
    "https://developer.hashicorp.com/terraform/cli/commands/destroy"
    "Experimental Commands" none,
  Topic.mk "get" "terraform get"
    "Download and update modules required by the configuration."
    "terraform get -update"
    "terraform get && terraform get -update"
    "https://developer.hashicorp.com/terraform/cli/commands/get"
    "Modules" none,
  Topic.mk "init_get_plugins" "terraform init -get-plugins"
    "Download necessary provider plugins; modern init handles this automatically."
    "terraform init -get-plugins"
    "terraform init -get-plugins"
    "https://developer.hashicorp.com/terraform/cli/commands/init"
    "Modules" none,
  Topic.mk "state_snapshot" "terraform state snapshot"
    "Create a snapshot/backup of the current state for recovery purposes."
    "terraform state pull > snapshot.tfstate"
    "terraform state pull > snapshot-2025-10-22.tfstate"
    "https://developer.hashicorp.com/terraform/cli/state"
    "Backups & Rollbacks" none,
  Topic.mk "state_restore" "terraform state restore"
    "Restore state from a backup file by pushing it back to the backend (advanced)."
    "terraform state push snapshot.tfstate"
    "terraform state push snapshot.tfstate"
    "https://developer.hashicorp.com/terraform/cli/state"
    "Backups & Rollbacks" none,
  Topic.mk "apply_backup_flag" "terraform apply -backup"
    "Specify a backup file to write current state before applying changes (provider-specific workflows)."
    "terraform apply -backup=backup.tfstate"
    "terraform apply -backup=backup-2025-10-22.tfstate -auto-approve"
    "https://developer.hashicorp.com/terraform/cli/commands/apply"
    "Backups & Rollbacks" none,
  Topic.mk "apply_auto_approve_repeat" "terraform apply -auto-approve"
    "Run apply automatically without confirmation; commonly used in automation pipelines."
    "terraform apply -auto-approve"
    "terraform apply -auto-approve"
    "https://developer.hashicorp.com/terraform/cli/commands/apply"
    "Automation & Scripting" none,
  Topic.mk "plan_detailed_exitcode" "terraform plan -detailed-exitcode"
    "Return exit codes that indicate whether a plan has changes (useful in CI to detect drift)."
    "terraform plan -detailed-exitcode"
    "terraform plan -detailed-exitcode || echo \x27changes or error\x27"
    "https://developer.hashicorp.com/terraform/cli/commands/plan"
    "Automation & Scripting" none,
  Topic.mk "apply_parallelism" "terraform apply -parallelism"
    "Limit concurrency of resource operations during apply to control API load."
    "terraform apply -parallelism=10 -auto-approve"
    "terraform apply -parallelism=5 -auto-approve"
    "https://developer.hashicorp.com/terraform/cli/commands/apply"
    "Automation & Scripting" none,
  Topic.mk "login_logout" "terraform login / logout"
    "Authenticate to Terraform Cloud/Enterprise and remove local credentials."
    "terraform login"
    "terraform login\nterraform logout"
    "https://developer.hashicorp.com/terraform/cli/commands/login"
    "Remote backend & collaboration" none,
  Topic.mk "init_backend_config" "terraform init -backend-config"
    "Initialize backend with specific configuration values for remote state."
    "terraform init -backend-config=backend.tf"
    "terraform init -backend-config=\"bucket=my-bucket\" -reconfigure"
    "https://developer.hashicorp.com/terraform/language/state/overview"
    "Remote backend & collaboration" none,
  Topic.mk "init_force_copy" "terraform init -force-copy"
    "Force copying of state data when reinitializing a backend (use carefully)."
    "terraform init -force-copy"
    "terraform init -force-copy -reconfigure -backend-config=\"bucket=my-bucket\""
    "https://developer.hashicorp.com/terraform/cli/commands/init"
    "Miscellaneous & tips" none,
  Topic.mk "plan_compact_warnings" "terraform plan -compact-warnings"
    "Reduce verbosity of warnings in plan output for cleaner logs."
    "terraform plan -compact-warnings -out=plan.tfplan"
    "terraform plan -compact-warnings -out=plan.tfplan"
    "https://developer.hashicorp.com/terraform/cli/commands/plan"
    "Miscellaneous & tips" none,
  Topic.mk "fmt_recursive" "terraform fmt -recursive"
    "Recursively format all .tf files under a directory."
    "terraform fmt -recursive"
    "terraform fmt -recursive"
    "https://developer.hashicorp.com/terraform/cli/commands/fmt"
    "Miscellaneous & tips" none,
  Topic.mk "force_unlock_misc" "terraform force-unlock"
    "Manually unlock the state using the lock ID to recover from stuck locks."
    "terraform force-unlock LOCK_ID"
    "terraform force-unlock 1234-abcd-5678"
    "https://developer.hashicorp.com/terraform/cli/commands/force-unlock"
    "Miscellaneous & tips" none
]

/-- The filter-and-sort engine: the embedding of `refresh`. -/
def refresh (filterText : String) : List Topic :=
  sortTopics (TOPICS.filter (matchesFilter (normFilter filterText)))

/-- State of one card's copy button area: the button label, the
clipboard contents visible to the page, and the pending
`setTimeout` revert (delay in milliseconds and the text the label will
be reverted to). -/
structure CopyBtnState where
  label : String
  clipboard : Option String
  pending : Option (Nat × String)
deriving DecidableEq

/-- The text handed to the clipboard for a card: the command line
followed by the example lines, exactly as the code block displays it. -/
def exampleBlockText (t : Topic) : String :=
  (if t.cmd ≠ "" then t.cmd ++ "\n" else "") ++ t.exampleText

/-- Effect of a click on the Copy button once the clipboard write
settles: on success the label becomes "Copied" and a revert to the
previous label is scheduled after 1200 ms; on failure the label becomes
"Copy failed" and a revert to the fixed label "Copy" is scheduled. -/
def copyClick (ok : Bool) (text : String) (s : CopyBtnState) : CopyBtnState :=
  if ok then
    { label := "Copied", clipboard := some text,
      pending := some (1200, s.label) }
  else
    { label := "Copy failed", clipboard := s.clipboard,
      pending := some (1200, "Copy") }

/-- Effect of the scheduled timer firing: the pending label is
installed. -/
def timerFire (s : CopyBtnState) : CopyBtnState :=
  match s.pending with
  | some (_, l) => { s with label := l, pending := none }
  | none => s

/-- The per-card user-interface state touched by the show/hide toggle:
the example wrapper's CSS display value, the toggle button label and
the copy button label. -/
structure CardUI where
  display : String
  toggleLabel : String
  copyLabel : String
deriving DecidableEq

/-- A freshly built card: example hidden, labels at their initial
values. -/
def initCard : CardUI :=
  { display := "none", toggleLabel := "Show example", copyLabel := "Copy" }

/-- Effect of a click on the Show/Hide example button. -/
def toggleClick (s : CardUI) : CardUI :=
  if s.display = "none" then
    { s with display := "block", toggleLabel := "Hide example" }
  else
    { s with display := "none", toggleLabel := "Show example" }

/-- Apply `f` to the element at position `i`, leaving every other
element unchanged (each card owns its listener and state). -/
def modifyAt (f : CardUI → CardUI) : List CardUI → Nat → List CardUI
  | [], _ => []
  | x :: xs, 0 => f x :: xs
  | x :: xs, n + 1 => x :: modifyAt f xs n

/-- The page-level effect of clicking the toggle of card `i`. -/
def toggleAt (page : List CardUI) (i : Nat) : List CardUI :=
  modifyAt toggleClick page i

/-- Modelled from the spec: the first-seen distinct values of a list,
in encounter order ("the sequence of first-seen distinct category
values, in encounter order"). -/
def firstSeenAux (seen : List String) : List String → List String
  | [] => []
  | c :: rest =>
    if c ∈ seen then firstSeenAux seen rest
    else c :: firstSeenAux (c :: seen) rest

/-- Modelled from the spec: first-seen distinct values, starting from
an empty memory. -/
def firstSeen (cs : List String) : List String := firstSeenAux [] cs

/-- Modelled from the spec: render the groups named by `cs`, each as
one header followed by every card of that category, in view-model
order. -/
def renderGroups (vm : List Topic) : List String → List RenderItem
  | [] => []
  | c :: cs =>
    RenderItem.header c ::
      (vm.filter (fun t => t.category == c)).map RenderItem.card ++
        renderGroups vm cs

/-- Modelled from the spec: the ideal grouped presentation — all cards
of a category appear together under that category's single header,
groups ordered by first-seen category order. -/
def groupedRender (vm : List Topic) : List RenderItem :=
  renderGroups vm (firstSeen (catsOf vm))

/-- Category contiguity: no category value recurs after a different
category has intervened (no `a, b, a` subsequence with `a ≠ b`). -/
def NoABA (cs : List String) : Prop :=
  ∀ a b, List.Sublist [a, b, a] cs → a = b

theorem topics_scores_none : ∀ t ∈ TOPICS, t.score = none := by decide

theorem topics_cats_ne_empty : ∀ t ∈ TOPICS, t.category ≠ "" := by decide

/-- Sorting by descending score is the identity when no element carries
a score: every comparison sees `0 ≤ 0`. -/
theorem sortTopics_eq_self (l : List Topic) (h : ∀ t ∈ l, t.score = none) :
    sortTopics l = l := by
  induction l with
  | nil => rfl
  | cons x l ih =>
    have hx : x.score = none := h x (List.mem_cons_self x l)
    have hl : ∀ t ∈ l, t.score = none := fun t ht => h t (List.mem_cons_of_mem x ht)
    show List.orderedInsert scoreGe x (List.insertionSort scoreGe l) = x :: l
    rw [show List.insertionSort scoreGe l = l from ih hl]
    cases l with
    | nil => rfl
    | cons y ys =>
      have hy : y.score = none := hl y (List.mem_cons_self y ys)
      simp [List.orderedInsert, scoreGe, scoreD, hx, hy]

/-- Every topic surviving the filter is a catalog entry without a
score, so the final sort leaves the filtered list untouched. -/
theorem refresh_eq_filter (f : String) :
    refresh f = TOPICS.filter (matchesFilter (normFilter f)) := by
  apply sortTopics_eq_self
  intro t ht
  exact topics_scores_none t (List.mem_filter.mp ht).1

/-- The filter predicate, characterised: an empty (normalised) search
text matches everything, otherwise it must occur in the lower-cased
concatenated text. -/
theorem matchesFilter_iff (ft : List Char) (t : Topic) :
    matchesFilter ft t = true ↔
      (ft = [] ∨ containsSub (lowerStr (combinedChars t)) ft = true) := by
  cases ft with
  | nil => simp [matchesFilter]
  | cons c cs => simp [matchesFilter, List.isEmpty]

/-- A search string that trims to nothing selects the whole catalog,
and the sort leaves the catalog in place. -/
theorem refresh_of_trim_empty (f : String) (h : trimStr f.toList = []) :
    refresh f = TOPICS := by
  rw [refresh_eq_filter]
  have hn : normFilter f = [] := by rw [normFilter, h]; rfl
  rw [hn]
  exact List.filter_eq_self.mpr fun t _ => rfl

theorem refresh_empty : refresh "" = TOPICS :=
  refresh_of_trim_empty "" rfl

theorem sortTopics_topics : sortTopics TOPICS = TOPICS :=
  sortTopics_eq_self TOPICS topics_scores_none

/-- Every element of a `refresh` result sits in the catalog. -/
theorem mem_topics_of_mem_refresh {f : String} {t : Topic}
    (h : t ∈ refresh f) : t ∈ TOPICS := by
  rw [refresh_eq_filter] at h
  exact (List.mem_filter.mp h).1

/-- The categories of a `refresh` result form a subsequence of the
catalog's category sequence. -/
theorem cats_refresh_sublist (f : String) :
    (catsOf (refresh f)).Sublist (catsOf TOPICS) := by
  rw [refresh_eq_filter]
  exact (List.filter_sublist TOPICS).map Topic.category

theorem mem_of_mem_firstSeenAux : ∀ {cs : List String} {seen : List String}
    {a : String}, a ∈ firstSeenAux seen cs → a ∈ cs ∧ a ∉ seen := by
  intro cs
  induction cs with
  | nil => intro seen a h; simp [firstSeenAux] at h
  | cons c rest ih =>
    intro seen a h
    by_cases hc : c ∈ seen
    · rw [firstSeenAux, if_pos hc] at h
      obtain ⟨h1, h2⟩ := ih h
      exact ⟨List.mem_cons_of_mem c h1, h2⟩
    · rw [firstSeenAux, if_neg hc] at h
      rcases List.mem_cons.mp h with rfl | hB
      · exact ⟨List.mem_cons_self _ _, hc⟩
      · obtain ⟨h1, h2⟩ := ih hB
        exact ⟨List.mem_cons_of_mem c h1, fun ha => h2 (List.mem_cons_of_mem c ha)⟩

theorem nodup_firstSeenAux : ∀ (cs : List String) (seen : List String),
    (firstSeenAux seen cs).Nodup := by
  intro cs
  induction cs with
  | nil => intro seen; simp [firstSeenAux]
  | cons c rest ih =>
    intro seen
    by_cases hc : c ∈ seen
    · rw [firstSeenAux, if_pos hc]; exact ih seen
    · rw [firstSeenAux, if_neg hc]
      refine List.nodup_cons.mpr ⟨?_, ih _⟩
      intro hmem
      exact (mem_of_mem_firstSeenAux hmem).2 (List.mem_cons_self _ _)

theorem firstSeenAux_append_skip (cs₀ cs₁ : List String) (seen : List String)
    (h : ∀ c ∈ cs₀, c ∈ seen) :
    firstSeenAux seen (cs₀ ++ cs₁) = firstSeenAux seen cs₁ := by
  induction cs₀ with
  | nil => rfl
  | cons c rest ih =>
    have hc : c ∈ seen := h c (List.mem_cons_self _ _)
    rw [List.cons_append, firstSeenAux, if_pos hc]
    exact ih fun x hx => h x (List.mem_cons_of_mem c hx)

theorem firstSeenAux_seen_congr : ∀ (cs : List String) {seen seenB : List String},
    (∀ c ∈ cs, (c ∈ seen ↔ c ∈ seenB)) →
    firstSeenAux seen cs = firstSeenAux seenB cs := by
  intro cs
  induction cs with
  | nil => intro seen seenB _; rfl
  | cons c rest ih =>
    intro seen seenB h
    have hc := h c (List.mem_cons_self _ _)
    by_cases hcs : c ∈ seen
    · have hcsB : c ∈ seenB := hc.mp hcs
      rw [firstSeenAux, if_pos hcs, firstSeenAux, if_pos hcsB]
      exact ih fun x hx => h x (List.mem_cons_of_mem c hx)
    · have hcsB : c ∉ seenB := fun hx => hcs (hc.mpr hx)
      rw [firstSeenAux, if_neg hcs, firstSeenAux, if_neg hcsB]
      refine congrArg (c :: ·) (ih fun x hx => ?_)
      have hxB := h x (List.mem_cons_of_mem c hx)
      simp [List.mem_cons, hxB]

theorem mem_seen_or_firstSeenAux : ∀ (cs : List String) (seen : List String)
    (a : String), a ∈ cs → a ∈ seen ∨ a ∈ firstSeenAux seen cs := by
  intro cs
  induction cs with
  | nil => intro seen a h; cases h
  | cons c rest ih =>
    intro seen a h
    by_cases hc : c ∈ seen
    · rw [firstSeenAux, if_pos hc]
      rcases List.mem_cons.mp h with rfl | hB
      · exact Or.inl hc
      · exact ih seen a hB
    · rw [firstSeenAux, if_neg hc]
      rcases List.mem_cons.mp h with rfl | hB
      · exact Or.inr (List.mem_cons_self _ _)
      · rcases ih (c :: seen) a hB with hs | hf
        · rcases List.mem_cons.mp hs with rfl | hsB
          · exact Or.inr (List.mem_cons_self _ _)
          · exact Or.inl hsB
        · exact Or.inr (List.mem_cons_of_mem _ hf)

theorem buildCardsAux_append_run (seen : List String) :
    ∀ (blk rest : List Topic), (∀ t ∈ blk, t.category ∈ seen) →
    buildCardsAux seen (blk ++ rest) =
      blk.map RenderItem.card ++ buildCardsAux seen rest := by
  intro blk
  induction blk with
  | nil => intro rest _; rfl
  | cons t blkB ih =>
    intro rest h
    have ht : t.category ∈ seen := h t (List.mem_cons_self _ _)
    have hguard : ¬(t.category ≠ "" ∧ t.category ∉ seen) := fun hg => hg.2 ht
    rw [List.cons_append, buildCardsAux, if_neg hguard, List.map_cons,
      List.cons_append]
    exact congrArg (RenderItem.card t :: ·)
      (ih rest fun x hx => h x (List.mem_cons_of_mem t hx))

theorem buildCardsAux_seen_congr : ∀ (l : List Topic) {seen seenB : List String},
    (∀ c ∈ catsOf l, (c ∈ seen ↔ c ∈ seenB)) →
    buildCardsAux seen l = buildCardsAux seenB l := by
  intro l
  induction l with
  | nil => intro seen seenB _; rfl
  | cons t rest ih =>
    intro seen seenB h
    have hc := h t.category (by simp [catsOf])
    have htail : ∀ c ∈ catsOf rest, (c ∈ seen ↔ c ∈ seenB) := by
      intro c hx
      refine h c ?_
      simp only [catsOf, List.map_cons, List.mem_cons]
      exact Or.inr hx
    by_cases hg : t.category ≠ "" ∧ t.category ∉ seen
    · have hgB : t.category ≠ "" ∧ t.category ∉ seenB :=
        ⟨hg.1, fun hx => hg.2 (hc.mpr hx)⟩
      rw [buildCardsAux, if_pos hg, buildCardsAux, if_pos hgB]
      refine congrArg (RenderItem.header t.category :: RenderItem.card t :: ·)
        (ih fun c hx => ?_)
      have hxB := htail c hx
      simp [List.mem_cons, hxB]
    · have hgB : ¬(t.category ≠ "" ∧ t.category ∉ seenB) := by
        intro hx
        exact hg ⟨hx.1, fun hmem => hx.2 (hc.mp hmem)⟩
      rw [buildCardsAux, if_neg hg, buildCardsAux, if_neg hgB]
      exact congrArg (RenderItem.card t :: ·) (ih htail)

theorem dropWhile_head_false {α : Type} {p : α → Bool} : ∀ {l : List α}
    {x : α} {xs : List α}, l.dropWhile p = x :: xs → p x = false := by
  intro l
  induction l with
  | nil => intro x xs h; cases h
  | cons y ys ih =>
    intro x xs h
    by_cases hy : p y = true
    · rw [List.dropWhile_cons, if_pos hy] at h
      exact ih h
    · rw [List.dropWhile_cons, if_neg hy] at h
      cases h
      exact Bool.eq_false_iff.mpr hy

theorem renderGroups_congr : ∀ (cs : List String) (vm vmB : List Topic),
    (∀ a ∈ cs, vm.filter (fun t => t.category == a) =
      vmB.filter (fun t => t.category == a)) →
    renderGroups vm cs = renderGroups vmB cs := by
  intro cs
  induction cs with
  | nil => intro vm vmB _; rfl
  | cons c csB ih =>
    intro vm vmB h
    simp only [renderGroups]
    rw [h c (List.mem_cons_self _ _),
      ih vm vmB fun a ha => h a (List.mem_cons_of_mem c ha)]

theorem noABA_sublist {cs csB : List String} (hsub : csB.Sublist cs)
    (h : NoABA cs) : NoABA csB :=
  fun a b hs => h a b (hs.trans hsub)

set_option maxRecDepth 100000 in
set_option maxHeartbeats 2000000 in
theorem noABA_topics : NoABA (catsOf TOPICS) := by
  have hdec : ∀ a ∈ firstSeen (catsOf TOPICS), ∀ b ∈ firstSeen (catsOf TOPICS),
      List.Sublist [a, b, a] (catsOf TOPICS) → a = b := by decide
  intro a b hs
  have ha : a ∈ catsOf TOPICS := hs.subset (by simp)
  have hb : b ∈ catsOf TOPICS := hs.subset (by simp)
  have haB : a ∈ firstSeen (catsOf TOPICS) := by
    rcases mem_seen_or_firstSeenAux _ [] a ha with h0 | h1
    · cases h0
    · exact h1
  have hbB : b ∈ firstSeen (catsOf TOPICS) := by
    rcases mem_seen_or_firstSeenAux _ [] b hb with h0 | h1
    · cases h0
    · exact h1
  exact hdec a haB b hbB hs

theorem filterMap_buildCardsAux : ∀ (l : List Topic) (seen : List String),
    (∀ t ∈ l, t.category ≠ "") →
    (buildCardsAux seen l).filterMap pickHeader = firstSeenAux seen (catsOf l) := by
  intro l
  induction l with
  | nil => intro seen _; rfl
  | cons t rest ih =>
    intro seen h
    have hc : t.category ≠ "" := h t (List.mem_cons_self _ _)
    have htail : ∀ x ∈ rest, x.category ≠ "" :=
      fun x hx => h x (List.mem_cons_of_mem t hx)
    rw [show catsOf (t :: rest) = t.category :: catsOf rest from rfl]
    by_cases hmem : t.category ∈ seen
    · have hg : ¬(t.category ≠ "" ∧ t.category ∉ seen) := fun hx => hx.2 hmem
      rw [buildCardsAux, if_neg hg, firstSeenAux, if_pos hmem,
        List.filterMap_cons]
      exact ih seen htail
    · rw [buildCardsAux, if_pos ⟨hc, hmem⟩, firstSeenAux, if_neg hmem,
        List.filterMap_cons, List.filterMap_cons]
      exact congrArg (t.category :: ·) (ih (t.category :: seen) htail)

theorem buildCards_grouped_fuel : ∀ (n : Nat) (vm : List Topic),
    vm.length ≤ n → (∀ t ∈ vm, t.category ≠ "") → NoABA (catsOf vm) →
    buildCards vm = groupedRender vm := by
  intro n
  induction n with
  | zero =>
    intro vm hlen _ _
    have hnil : vm = [] := List.eq_nil_of_length_eq_zero (Nat.le_zero.mp hlen)
    subst hnil; rfl
  | succ n ih =>
    intro vm hlen hne hABA
    cases vm with
    | nil => rfl
    | cons t rest =>
      have hc : t.category ≠ "" := hne t (List.mem_cons_self _ _)
      obtain ⟨blk, restB, hblk_def, hrestBdef, hsplit⟩ :
          ∃ blk restB,
            blk = rest.takeWhile (fun x => x.category == t.category) ∧
            restB = rest.dropWhile (fun x => x.category == t.category) ∧
            blk ++ restB = rest :=
        ⟨_, _, rfl, rfl, List.takeWhile_append_dropWhile _ _⟩
      have hblkc : ∀ x ∈ blk, x.category = t.category := by
        intro x hx
        rw [hblk_def] at hx
        have hxB := List.mem_takeWhile_imp hx
        exact eq_of_beq hxB
      have hrestBsub : restB.Sublist rest := by
        rw [hrestBdef]; exact List.dropWhile_sublist _
      have hcnot : t.category ∉ catsOf restB := by
        intro hmem
        cases hre : restB with
        | nil => rw [hre] at hmem; cases hmem
        | cons d tail =>
          have hd0 := dropWhile_head_false
            (show rest.dropWhile (fun x => x.category == t.category) =
              d :: tail from by rw [← hrestBdef, hre])
          have hd : (d.category == t.category) = false := hd0
          have hdB : d.category ≠ t.category := by
            intro he; rw [he] at hd; simp at hd
          rw [hre] at hmem
          have hmemB : t.category ∈ catsOf tail := by
            rcases List.mem_cons.mp hmem with he | hB
            · exact absurd he fun heB => hdB heB.symm
            · exact hB
          have hs1 : List.Sublist [d.category, t.category]
              (d.category :: catsOf tail) :=
            List.Sublist.cons₂ _ (List.singleton_sublist.mpr hmemB)
          have hs2 : List.Sublist (d.category :: catsOf tail)
              (catsOf blk ++ (d.category :: catsOf tail)) :=
            List.sublist_append_right _ _
          have hs3 : List.Sublist [t.category, d.category, t.category]
              (catsOf (t :: rest)) := by
            have hdec : catsOf (t :: rest) =
                t.category :: (catsOf blk ++ (d.category :: catsOf tail)) := by
              rw [show catsOf (t :: rest) = t.category :: catsOf rest from rfl,
                ← hsplit, hre]
              simp [catsOf]
            rw [hdec]
            exact List.Sublist.cons₂ _ (hs1.trans hs2)
          exact hdB (hABA t.category d.category hs3).symm
      have hseen_congr : ∀ x ∈ catsOf restB,
          (x ∈ [t.category] ↔ x ∈ ([] : List String)) := by
        intro x hx
        have hxn : x ∉ [t.category] := by
          intro hm
          have hxt : x = t.category := by simpa using hm
          rw [hxt] at hx; exact hcnot hx
        exact iff_of_false hxn (List.not_mem_nil x)
      have hLHS : buildCards (t :: rest) =
          RenderItem.header t.category :: RenderItem.card t ::
            (blk.map RenderItem.card ++ buildCards restB) := by
        rw [buildCards, ← hsplit, buildCardsAux,
          if_pos ⟨hc, List.not_mem_nil _⟩,
          buildCardsAux_append_run [t.category] blk restB
            (fun x hx => by rw [hblkc x hx]; exact List.mem_cons_self _ _),
          buildCardsAux_seen_congr restB hseen_congr]
        rfl
      have hlenB : restB.length ≤ n := by
        have h1 : restB.length ≤ rest.length := hrestBsub.length_le
        have h2 : (t :: rest).length = rest.length + 1 := rfl
        rw [h2] at hlen
        omega
      have hneB : ∀ x ∈ restB, x.category ≠ "" := fun x hx =>
        hne x (List.mem_cons_of_mem t (hrestBsub.subset hx))
      have hcats_sub : (catsOf restB).Sublist (catsOf (t :: rest)) := by
        have h1 : (catsOf restB).Sublist (catsOf rest) :=
          hrestBsub.map Topic.category
        exact h1.trans (List.sublist_cons_self _ _)
      have hIH : buildCards restB = groupedRender restB :=
        ih restB hlenB hneB (noABA_sublist hcats_sub hABA)
      have hfs : firstSeen (catsOf (t :: rest)) =
          t.category :: firstSeen (catsOf restB) := by
        have hdec : catsOf (t :: rest) =
            t.category :: (catsOf blk ++ catsOf restB) := by
          rw [show catsOf (t :: rest) = t.category :: catsOf rest from rfl,
            ← hsplit]
          simp [catsOf]
        rw [hdec, firstSeen, firstSeenAux, if_neg (List.not_mem_nil _),
          firstSeenAux_append_skip _ _ _ (fun x hx => by
            obtain ⟨b, hb, rfl⟩ := List.mem_map.mp hx
            rw [hblkc b hb]; exact List.mem_cons_self _ _),
          firstSeenAux_seen_congr _ hseen_congr]
        rfl
      have hfilter : (t :: rest).filter (fun x => x.category == t.category) =
          t :: blk := by
        have h1 : blk.filter (fun x => x.category == t.category) = blk :=
          List.filter_eq_self.mpr fun x hx => by
            rw [hblkc x hx]; exact beq_self_eq_true _
        have h2 : restB.filter (fun x => x.category == t.category) = [] := by
          refine List.filter_eq_nil_iff.mpr fun x hx hxx => ?_
          have hxc : x.category = t.category := eq_of_beq hxx
          exact hcnot (hxc ▸ List.mem_map_of_mem Topic.category hx)
        rw [← hsplit]
        simp [List.filter_append, h1, h2]
      have hRHS : groupedRender (t :: rest) =
          RenderItem.header t.category :: RenderItem.card t ::
            (blk.map RenderItem.card ++ groupedRender restB) := by
        rw [groupedRender, hfs, renderGroups, hfilter,
          renderGroups_congr (firstSeen (catsOf restB)) (t :: rest) restB
            (fun a ha => by
              have haB : a ∈ catsOf restB := (mem_of_mem_firstSeenAux ha).1
              have hne_a : (t.category == a) = false := by
                refine beq_eq_false_iff_ne.mpr fun he => ?_
                exact hcnot (he ▸ haB)
              have h1 : blk.filter (fun x => x.category == a) = [] := by
                refine List.filter_eq_nil_iff.mpr fun x hx hxx => ?_
                have hxc : x.category = a := eq_of_beq hxx
                have hxt : x.category = t.category := hblkc x hx
                rw [← hxt, hxc] at hne_a
                simp at hne_a
              rw [← hsplit]
              simp [List.filter_append, List.filter_cons, hne_a, h1])]
        simp [groupedRender]
      rw [hLHS, hRHS, hIH]

/-- The grouped-render equation on any view model whose categories are
non-empty and contiguous. -/
theorem buildCards_grouped (vm : List Topic)
    (hne : ∀ t ∈ vm, t.category ≠ "") (hABA : NoABA (catsOf vm)) :
    buildCards vm = groupedRender vm :=
  buildCards_grouped_fuel vm.length vm le_rfl hne hABA

theorem modifyAt_append (f : CardUI → CardUI) (pre post : List CardUI)
    (s : CardUI) :
    modifyAt f (pre ++ s :: post) pre.length = pre ++ f s :: post := by
  induction pre with
  | nil => rfl
  | cons x xs ih =>
    rw [List.cons_append, List.length_cons, modifyAt, ih, List.cons_append]

theorem toggleClick_toggleClick (s : CardUI) (h1 : s.display = "none")
    (h2 : s.toggleLabel = "Show example") :
    toggleClick (toggleClick s) = s := by
  obtain ⟨d, tl, cl⟩ := s
  simp only at h1 h2
  subst h1; subst h2
  rfl

/-- The per-field containment check asserted by the claim: does the
search string occur, case-insensitively, in at least one of the four
text fields taken individually? -/
def fieldOccursB (f : String) (t : Topic) : Bool :=
  containsSub (lowerStr t.title.toList) (lowerStr f.toList) ||
  containsSub (lowerStr t.desc.toList) (lowerStr f.toList) ||
  containsSub (lowerStr t.cmd.toList) (lowerStr f.toList) ||
  containsSub (lowerStr t.exampleText.toList) (lowerStr f.toList)

set_option maxRecDepth 100000 in
set_option maxHeartbeats 4000000 in
/-- C1: counterexample to the claim as stated.  The filter string
"plan generate" selects the `terraform plan` topic — it spans the
boundary between the title and the description in the concatenated
text — even though it occurs in none of the four fields individually,
so membership in the result is not equivalent to the per-field
containment check. -/
theorem c1_counterexample :
    (TOPICS.get ⟨1, by decide⟩) ∈ refresh "plan generate" ∧
    fieldOccursB "plan generate" (TOPICS.get ⟨1, by decide⟩) = false := by
  constructor
  · decide
  · decide

/-- C1 (amended): a topic is in the filtered result iff it is a catalog
entry and the trimmed, lower-cased filter is empty or occurs as a
substring of the lower-cased, space-joined concatenation of its title,
description, command and example fields. -/
theorem c1_amended (f : String) (t : Topic) :
    t ∈ refresh f ↔
      t ∈ TOPICS ∧ (normFilter f = [] ∨
        containsSub (lowerStr (combinedChars t)) (normFilter f) = true) := by
  rw [refresh_eq_filter, List.mem_filter, matchesFilter_iff]

/-- C2: a filter string that trims to nothing (empty or whitespace
only) selects the whole catalog in catalog order — which, all scores
being absent, is exactly the score-descending, catalog-stable order —
and the result is sorted by descending score. -/
theorem c2_empty_filter (f : String) (h : trimStr f.toList = []) :
    refresh f = TOPICS ∧ List.Sorted scoreGe (refresh f) :=
  ⟨refresh_of_trim_empty f h, List.sorted_insertionSort scoreGe _⟩

theorem c2_empty_filter_witness :
    trimStr "   ".toList = [] ∧ refresh "   " = TOPICS :=
  ⟨by decide, (c2_empty_filter "   " (by decide)).1⟩

/-- C3: for every filter string the output is sorted by descending
score, is a subsequence of the catalog re-sorted by descending score
(a missing score counting as zero), and the sort is stable — two
equally-scored topics appearing in the output appear in their original
catalog order. -/
theorem c3_sorted_stable (f : String) :
    List.Sorted scoreGe (refresh f) ∧
    (refresh f).Sublist (sortTopics TOPICS) ∧
    ∀ a b : Topic, List.Sublist [a, b] (refresh f) → scoreD a = scoreD b →
      List.Sublist [a, b] TOPICS := by
  refine ⟨List.sorted_insertionSort scoreGe _, ?_, ?_⟩
  · rw [sortTopics_topics, refresh_eq_filter]
    exact List.filter_sublist TOPICS
  · intro a b hab _
    refine hab.trans ?_
    rw [refresh_eq_filter]
    exact List.filter_sublist TOPICS

set_option maxRecDepth 100000 in
theorem c3_sorted_stable_witness :
    List.Sublist [TOPICS.get ⟨0, by decide⟩, TOPICS.get ⟨1, by decide⟩]
      TOPICS :=
  (c3_sorted_stable "").2.2 _ _ (by rw [refresh_empty]; decide) rfl

/-- C4: for every view model the renderer produces (the filtered,
sorted catalog for any filter string), the emitted group headers are
exactly the first-seen distinct category values in encounter order,
and no header is repeated within the render pass. -/
theorem c4_headers_first_seen (f : String) :
    headersOf (refresh f) = firstSeen (catsOf (refresh f)) ∧
    (headersOf (refresh f)).Nodup := by
  have hne : ∀ t ∈ refresh f, t.category ≠ "" := fun t ht =>
    topics_cats_ne_empty t (mem_topics_of_mem_refresh ht)
  have heq : headersOf (refresh f) = firstSeen (catsOf (refresh f)) :=
    filterMap_buildCardsAux (refresh f) [] hne
  exact ⟨heq, heq ▸ nodup_firstSeenAux _ _⟩

/-- C5: every rendered output is exactly the grouped presentation —
for each category, in first-seen order, a single header followed by
every card of that category, so all cards sharing a category appear
together under that category's one header. -/
theorem c5_grouped_render (f : String) :
    buildCards (refresh f) = groupedRender (refresh f) := by
  apply buildCards_grouped
  · intro t ht
    exact topics_cats_ne_empty t (mem_topics_of_mem_refresh ht)
  · exact noABA_sublist (cats_refresh_sublist f) noABA_topics

/-- C6: the identifier field is unique across the embedded catalog. -/
theorem c6_ids_nodup : (TOPICS.map Topic.id).Nodup := by decide

/-- C7: a successful copy places the displayed example block text (the
command line, a newline, then the example lines, verbatim) on the
clipboard, switches the button label to "Copied" immediately, and the
1200 ms timer reverts the label to exactly the label held before the
click. -/
theorem c7_copy_success (t : Topic) (s : CopyBtnState) :
    (copyClick true (exampleBlockText t) s).clipboard =
      some ((if t.cmd ≠ "" then t.cmd ++ "\n" else "") ++ t.exampleText) ∧
    (copyClick true (exampleBlockText t) s).label = "Copied" ∧
    (copyClick true (exampleBlockText t) s).pending = some (1200, s.label) ∧
    (timerFire (copyClick true (exampleBlockText t) s)).label = s.label :=
  ⟨rfl, rfl, rfl, rfl⟩

/-- C8: a card's example block starts hidden, and toggling a card whose
example is hidden (labels at their initial values) twice in succession
restores the entire page state: that card returns to hidden with its
initial toggle label and no other field of that card — nor any other
card — changes. -/
theorem c8_toggle_twice (pre post : List CardUI) (s : CardUI)
    (h1 : s.display = "none") (h2 : s.toggleLabel = "Show example") :
    initCard.display = "none" ∧ initCard.toggleLabel = "Show example" ∧
    (toggleClick s).display = "block" ∧
    toggleAt (toggleAt (pre ++ s :: post) pre.length) pre.length =
      pre ++ s :: post := by
  refine ⟨rfl, rfl, ?_, ?_⟩
  · rw [toggleClick, if_pos h1]
  · simp only [toggleAt]
    rw [modifyAt_append, modifyAt_append, toggleClick_toggleClick s h1 h2]

theorem c8_toggle_twice_witness :
    initCard.display = "none" ∧
    toggleAt (toggleAt [initCard] 0) 0 = [initCard] := by
  have h := c8_toggle_twice [] [] initCard rfl rfl
  exact ⟨h.1, h.2.2.2⟩

/-- C9: no embedded catalog entry defines a score, hence for every
filter string the sort leaves the filtered list in catalog order (the
result is exactly the filtered catalog) and no rendered card shows the
importance badge. -/
theorem c9_no_scores (f : String) :
    (TOPICS.all fun t => t.score == none) = true ∧
    refresh f = TOPICS.filter (matchesFilter (normFilter f)) ∧
    ((refresh f).all fun t => !showsScoreBadge t) = true := by
  refine ⟨by decide, refresh_eq_filter f, ?_⟩
  rw [List.all_eq_true]
  intro t ht
  have hs := topics_scores_none t (mem_topics_of_mem_refresh ht)
  simp [showsScoreBadge, hs]

/-- C10: when the clipboard write fails, the label becomes
"Copy failed" and the timer then installs the fixed label "Copy"
(not the pre-click label); the clipboard is untouched; only the
success path restores the pre-click label. -/
theorem c10_copy_failure (text : String) (s : CopyBtnState) :
    (copyClick false text s).label = "Copy failed" ∧
    (timerFire (copyClick false text s)).label = "Copy" ∧
    (copyClick false text s).clipboard = s.clipboard ∧
    (timerFire (copyClick true text s)).label = s.label :=
  ⟨rfl, rfl, rfl, rfl⟩
